import Mathlib

/-!
# Verification of the go-metrics → Google Cloud Monitoring reporter

A shallow embedding of the core of `gcm.go` (and, for the descriptor cache,
the earlier v2beta2 revision of the reporter), together with proofs of the
specified properties of the Value Extractor, Time-Series Builder, Batch
Assembler, Submission Loop and Diagnostics.

Modelling conventions:
* Go `int64` values become `Int`; Go `float64` values become `ℚ` — the only
  operation the code performs on them is an exact comparison with zero, which
  `ℚ` models faithfully.
* Go maps used as label sets become association lists; the registry becomes a
  list of (name, instrument) pairs in iteration order.
* The two `sync.Once` diagnostic latches become two booleans threaded through
  the computation as explicit state, and `log.Printf` calls become an explicit
  list of `LogEvent`s.
* A `metrics.Meter`'s `Snapshot()` is modelled as the immutable
  `MeterSnapshot` value the instrument holds: the code reads every rate from
  the single snapshot taken at the top of the `case`.
-/

set_option autoImplicit false

namespace Gcm

/-- One atomic snapshot of a `metrics.Meter`: `Count`, `RateMean`, `Rate1`,
`Rate5`, `Rate15`. -/
structure MeterSnapshot where
  count : Int
  rateMean : ℚ
  rate1 : ℚ
  rate5 : ℚ
  rate15 : ℚ
  deriving DecidableEq, Repr

/-- The instrument kinds dispatched over by the `switch` in
`buildTimeSeries` (src/gcm.go lines 162–272): `metrics.Counter`,
`metrics.Gauge`, `metrics.GaugeFloat64`, `metrics.Meter`,
`metrics.Histogram`, `metrics.Timer`, and the `default` arm for anything
else. Histogram and Timer expose only their count. -/
inductive Instrument where
  | counter (count : Int)
  | gauge (value : Int)
  | gaugeFloat64 (value : ℚ)
  | meter (snapshot : MeterSnapshot)
  | histogram (count : Int)
  | timer (count : Int)
  | unknown
  deriving DecidableEq, Repr

/-- The registry as scanned by `r.Each`: (name, instrument) pairs in
iteration order. -/
abbrev Registry := List (String × Instrument)

/-- `cloudmonitoring.TypedValue`: the code sets exactly one of the two
pointer fields `Int64Value` / `DoubleValue`; `none` is a nil pointer. -/
structure TypedValue where
  int64Value : Option Int
  doubleValue : Option ℚ
  deriving DecidableEq, Repr

/-- `cloudmonitoring.TimeInterval`. The code constructs it with only
`EndTime` set; `StartTime` keeps the Go zero value `""`. -/
structure TimeInterval where
  startTime : String
  endTime : String
  deriving DecidableEq, Repr

/-- `cloudmonitoring.Point`: a typed value and its interval. -/
structure Point where
  value : TypedValue
  interval : TimeInterval
  deriving DecidableEq, Repr

/-- `cloudmonitoring.Metric`: the metric identity (`Type`) plus labels. -/
structure Metric where
  type : String
  labels : List (String × String)
  deriving DecidableEq, Repr

/-- `cloudmonitoring.MonitoredResource`: a type string plus
resource-specific labels. -/
structure MonitoredResource where
  type : String
  labels : List (String × String)
  deriving DecidableEq, Repr

/-- `cloudmonitoring.TimeSeries`: metric identity, monitored resource, and
points. -/
structure TimeSeries where
  metric : Metric
  resource : MonitoredResource
  points : List Point
  deriving DecidableEq, Repr

/-- `GlobalMonitoredResource = &cloudmonitoring.MonitoredResource{Type: "global"}`
(src/gcm.go line 58): the process-global default monitored resource. -/
def GlobalMonitoredResource : MonitoredResource :=
  { type := "global", labels := [] }

/-- The part of `Config` (src/gcm.go lines 26–50) that the batch builder
reads: the label mapping and the optional monitored resource (`none` is a
nil pointer). -/
structure Config where
  labels : List (String × String)
  monitoredRessource : Option MonitoredResource
  deriving DecidableEq, Repr

/-- The two `sync.Once` latches `histogramsNotImplemented` and
`timersNotImplemented` (src/gcm.go lines 52–54), as explicit process-wide
state: `true` once the corresponding warning has fired. -/
structure OnceState where
  histogramsNotImplemented : Bool
  timersNotImplemented : Bool
  deriving DecidableEq, Repr

/-- The initial `sync.Once` state: neither warning has fired yet. -/
def freshOnce : OnceState :=
  { histogramsNotImplemented := false, timersNotImplemented := false }

/-- The `log.Printf` calls made while building a batch. -/
inductive LogEvent where
  /-- "Histograms are not available in custom metrics, …" -/
  | histogramsWarning
  /-- "Timers are not implemented yet" -/
  | timersWarning
  /-- "unknown metric ? %#v" from the `default` arm. -/
  | unknownMetric
  deriving DecidableEq, Repr

/-- Recognises the histogram warning (for counting log occurrences). -/
def LogEvent.isHistogramsWarning : LogEvent → Bool
  | .histogramsWarning => true
  | _ => false

/-- Recognises the timer warning (for counting log occurrences). -/
def LogEvent.isTimersWarning : LogEvent → Bool
  | .timersWarning => true
  | _ => false

/-- `DotSlashes` (src/gcm.go lines 133–135) embeds
`strings.Replace(name, ".", "/", -1)`: pattern and replacement are single
characters, so replacing every occurrence equals mapping each character. -/
def DotSlashes (name : String) : String :=
  ⟨name.data.map fun c => if c = '.' then '/' else c⟩

/-- `customMetric` (src/gcm.go lines 138–140):
`fmt.Sprintf("custom.googleapis.com/%s", DotSlashes(name))`. -/
def customMetric (name : String) : String :=
  "custom.googleapis.com/" ++ DotSlashes name

/-- `Config.newTimeSeries` (src/gcm.go lines 143–156): metric identity from
`customMetric`, the config's labels verbatim, and the config's monitored
resource with the nil check substituting `GlobalMonitoredResource`. -/
def newTimeSeries (config : Config) (name : String) : TimeSeries :=
  { metric := { type := customMetric name, labels := config.labels },
    resource := config.monitoredRessource.getD GlobalMonitoredResource,
    points := [] }

/-- One `p := config.newTimeSeries(name); p.Points = append(p.Points, &Point{...})`
block: a series with a single point whose interval has `EndTime = start`. -/
def mkSeries (config : Config) (start name : String) (v : TypedValue) : TimeSeries :=
  let p := newTimeSeries config name
  { p with
    points := p.points ++ [{ value := v, interval := { startTime := "", endTime := start } }] }

/-- The `case metrics.Meter` body (src/gcm.go lines 208–257): after
`m = m.Snapshot()`, each of the four rates appends one double-valued series
(suffixes `.mean`, `.1min`, `.5min`, `.15min`) exactly when it is nonzero.
No `.count` series is built and the snapshot count is never read. -/
def buildMeter (config : Config) (start name : String) (s : MeterSnapshot) :
    List TimeSeries :=
  (if s.rateMean ≠ 0 then
    [mkSeries config start (name ++ ".mean") { int64Value := none, doubleValue := some s.rateMean }]
   else []) ++
  (if s.rate1 ≠ 0 then
    [mkSeries config start (name ++ ".1min") { int64Value := none, doubleValue := some s.rate1 }]
   else []) ++
  (if s.rate5 ≠ 0 then
    [mkSeries config start (name ++ ".5min") { int64Value := none, doubleValue := some s.rate5 }]
   else []) ++
  (if s.rate15 ≠ 0 then
    [mkSeries config start (name ++ ".15min") { int64Value := none, doubleValue := some s.rate15 }]
   else [])

/-- One arm of the `switch m := metric.(type)` inside `buildTimeSeries`
(src/gcm.go lines 162–272): the series appended for one registry entry,
the updated `sync.Once` state, and the log lines emitted. -/
def buildForMetric (config : Config) (start name : String) (m : Instrument)
    (st : OnceState) : List TimeSeries × OnceState × List LogEvent :=
  match m with
  | .counter v =>
      if v = 0 then ([], st, [])
      else ([mkSeries config start name { int64Value := some v, doubleValue := none }], st, [])
  | .gauge v =>
      if v = 0 then ([], st, [])
      else ([mkSeries config start name { int64Value := some v, doubleValue := none }], st, [])
  | .gaugeFloat64 v =>
      if v = 0 then ([], st, [])
      else ([mkSeries config start name { int64Value := none, doubleValue := some v }], st, [])
  | .meter s => (buildMeter config start name s, st, [])
  | .histogram c =>
      if 0 < c then
        if st.histogramsNotImplemented then ([], st, [])
        else ([], { st with histogramsNotImplemented := true }, [.histogramsWarning])
      else ([], st, [])
  | .timer c =>
      if 0 < c then
        if st.timersNotImplemented then ([], st, [])
        else ([], { st with timersNotImplemented := true }, [.timersWarning])
      else ([], st, [])
  | .unknown => ([], st, [.unknownMetric])

/-- `Config.buildTimeSeries` (src/gcm.go lines 160–275): `r.Each` over the
registry, appending the series of every entry in iteration order, threading
the `sync.Once` state and collecting the log lines. -/
def buildTimeSeries (config : Config) (start : String) : Registry → OnceState →
    List TimeSeries × OnceState × List LogEvent
  | [], st => ([], st, [])
  | (name, m) :: rest, st =>
      let r₁ := buildForMetric config start name m st
      let r₂ := buildTimeSeries config start rest r₁.2.1
      (r₁.1 ++ r₂.1, r₂.2.1, r₁.2.2 ++ r₂.2.2)

/-- Several reporting ticks sharing the process-wide `sync.Once` state: each
tick is a (timestamp, registry) pair handed to `buildTimeSeries`. -/
def runTicks (config : Config) : List (String × Registry) → OnceState →
    List TimeSeries × OnceState × List LogEvent
  | [], st => ([], st, [])
  | (start, reg) :: rest, st =>
      let r₁ := buildTimeSeries config start reg st
      let r₂ := runTicks config rest r₁.2.1
      (r₁.1 ++ r₂.1, r₂.2.1, r₁.2.2 ++ r₂.2.2)

/-- The state of the `Monitor` loop (src/gcm.go lines 92–106): the
consecutive-error counter `errors` and whether `ticker.Stop()` has run
(after which no further tick is delivered to the loop body). -/
structure LoopState where
  errors : Int
  stopped : Bool
  deriving DecidableEq, Repr

/-- One iteration of the `for range ticker.C` body: `failed` is whether
`reporter.Report(r)` returned an error. On failure `errors++`, on success
`errors = 0`; then `if errors >= maxErrors { ticker.Stop() }`. A stopped
ticker delivers no tick, so a stopped state is absorbing. -/
def monitorStep (maxErrors : Int) (s : LoopState) (failed : Bool) : LoopState :=
  if s.stopped then s
  else
    let e : Int := if failed then s.errors + 1 else 0
    { errors := e, stopped := decide (maxErrors ≤ e) }

/-- The `Monitor` loop run against a list of tick outcomes (`true` =
submission failed), from the initial state `var errors int`. -/
def monitorRun (maxErrors : Int) (fails : List Bool) : LoopState :=
  fails.foldl (monitorStep maxErrors) { errors := 0, stopped := false }

/-- How many ticks the loop body actually processes out of a prospective
list of tick outcomes: once stopped, no further tick occurs. -/
def ticksProcessed (maxErrors : Int) : List Bool → LoopState → Nat
  | [], _ => 0
  | b :: rest, s =>
      if s.stopped then 0
      else 1 + ticksProcessed maxErrors rest (monitorStep maxErrors s b)

/-- `n` failed submissions each followed by a successful one: cumulative
failures that are never consecutive. -/
def alternatingFails : Nat → List Bool
  | 0 => []
  | n + 1 => true :: false :: alternatingFails n

/-- Whether an instrument trips the histogram-unsupported diagnostic check
(`case metrics.Histogram: if m.Count() > 0`). -/
def triggersHistogram : Instrument → Bool
  | .histogram c => decide (0 < c)
  | _ => false

/-- Whether an instrument trips the timer-unsupported diagnostic check
(`case metrics.Timer: if m.Count() > 0`). -/
def triggersTimer : Instrument → Bool
  | .timer c => decide (0 < c)
  | _ => false

/-- `Reporter.CreateGauge` from the v2beta2 revision of the reporter
(src/unnamed/part_000 lines 203–226). `gauges` is the reporter's
name cache (`map[string]struct{}`), `callFails` is whether the backend
`MetricDescriptors.Create(...).Do()` call returns an error. Returns the
updated cache and whether the backend call was made: a cached name returns
immediately; otherwise the call is made and the name is inserted into the
cache only under `if err != nil`. -/
def CreateGauge (gauges : List String) (name : String) (callFails : Bool) :
    List String × Bool :=
  if name ∈ gauges then (gauges, false)
  else ((if callFails then name :: gauges else gauges), true)

/-- The metric identity strings of a list of series. -/
def seriesTypes (l : List TimeSeries) : List String :=
  l.map fun ts => ts.metric.type

/-! ## Basic lemmas -/

/-- The meter case builds exactly the four (suffix, rate) candidates filtered
by rate ≠ 0, in source order, each as a double-valued single-point series. -/
theorem buildMeter_eq_filter (config : Config) (start name : String)
    (s : MeterSnapshot) :
    buildMeter config start name s
      = ([(".mean", s.rateMean), (".1min", s.rate1), (".5min", s.rate5),
          (".15min", s.rate15)].filter fun p => decide (p.2 ≠ 0)).map
          fun p => mkSeries config start (name ++ p.1)
            { int64Value := none, doubleValue := some p.2 } := by
  unfold buildMeter
  rcases eq_or_ne s.rateMean 0 with h1 | h1 <;>
    rcases eq_or_ne s.rate1 0 with h2 | h2 <;>
      rcases eq_or_ne s.rate5 0 with h3 | h3 <;>
        rcases eq_or_ne s.rate15 0 with h4 | h4 <;>
          simp [List.filter_cons, h1, h2, h3, h4]

theorem buildForMetric_counter_zero (config : Config) (start name : String)
    (st : OnceState) :
    buildForMetric config start name (.counter 0) st = ([], st, []) := by
  simp [buildForMetric]

theorem buildForMetric_gauge_zero (config : Config) (start name : String)
    (st : OnceState) :
    buildForMetric config start name (.gauge 0) st = ([], st, []) := by
  simp [buildForMetric]

theorem buildForMetric_gaugeFloat64_zero (config : Config) (start name : String)
    (st : OnceState) :
    buildForMetric config start name (.gaugeFloat64 0) st = ([], st, []) := by
  simp [buildForMetric]

/-- Inserting a registry entry that emits nothing, changes no state and logs
nothing does not change the batch. -/
theorem buildTimeSeries_insert_inert (config : Config) (start name : String)
    (m : Instrument) (hm : ∀ st, buildForMetric config start name m st = ([], st, []))
    (pre post : Registry) (st : OnceState) :
    buildTimeSeries config start (pre ++ (name, m) :: post) st
      = buildTimeSeries config start (pre ++ post) st := by
  induction pre generalizing st with
  | nil => simp [buildTimeSeries, hm st]
  | cons p pre ih => cases p with
    | mk nm i => simp only [List.cons_append, buildTimeSeries, List.append_eq, ih]

theorem monitorStep_stopped (maxErrors : Int) (s : LoopState) (b : Bool)
    (h : s.stopped = true) : monitorStep maxErrors s b = s := by
  simp [monitorStep, h]

theorem foldl_monitorStep_stopped (maxErrors : Int) (l : List Bool)
    (s : LoopState) (h : s.stopped = true) :
    l.foldl (monitorStep maxErrors) s = s := by
  induction l with
  | nil => rfl
  | cons b l ih => simp [List.foldl_cons, monitorStep_stopped maxErrors s b h, ih]

theorem ticksProcessed_stopped (maxErrors : Int) (l : List Bool)
    (s : LoopState) (h : s.stopped = true) :
    ticksProcessed maxErrors l s = 0 := by
  cases l <;> simp [ticksProcessed, h]

/-- A failing step from a live state below the threshold just increments the
counter. -/
theorem monitorStep_true_lt (maxErrors : Int) (e : Int) (h : e + 1 < maxErrors) :
    monitorStep maxErrors { errors := e, stopped := false } true
      = { errors := e + 1, stopped := false } := by
  simp only [monitorStep, Bool.false_eq_true, if_false, if_true]
  exact congrArg _ (by simp; omega)

/-- A failing step that reaches the threshold stops the loop. -/
theorem monitorStep_true_stop (maxErrors : Int) (e : Int) (h : maxErrors ≤ e + 1) :
    monitorStep maxErrors { errors := e, stopped := false } true
      = { errors := e + 1, stopped := true } := by
  simp only [monitorStep, Bool.false_eq_true, if_false, if_true]
  exact congrArg _ (by simp [h])

/-- A run of `k` consecutive failures strictly below the threshold leaves the
loop live with `errors = e + k`. -/
theorem foldl_replicate_true_lt (maxErrors : Int) :
    ∀ (k : Nat) (e : Int), e + k < maxErrors →
      (List.replicate k true).foldl (monitorStep maxErrors)
          { errors := e, stopped := false }
        = { errors := e + k, stopped := false } := by
  intro k
  induction k with
  | zero => intro e _; simp
  | succ k ih =>
      intro e h
      rw [List.replicate_succ, List.foldl_cons,
        monitorStep_true_lt maxErrors e (by push_cast at h ⊢; omega),
        ih (e + 1) (by push_cast at h ⊢; omega)]
      congr 1
      push_cast
      ring

/-- A run of `k ≥ 1` consecutive failures that exactly reaches the threshold
stops the loop with `errors = maxErrors`. -/
theorem foldl_replicate_true_stop (maxErrors : Int) :
    ∀ (k : Nat) (e : Int), 1 ≤ k → e + k = maxErrors →
      (List.replicate k true).foldl (monitorStep maxErrors)
          { errors := e, stopped := false }
        = { errors := maxErrors, stopped := true } := by
  intro k
  induction k with
  | zero => intro e h; omega
  | succ k ih =>
      intro e _ h
      rw [List.replicate_succ, List.foldl_cons]
      rcases Nat.eq_zero_or_pos k with hk | hk
      · subst hk
        rw [monitorStep_true_stop maxErrors e (by push_cast at h; omega)]
        simp only [List.replicate_zero, List.foldl_nil]
        exact congrArg (fun x => LoopState.mk x true) (by push_cast at h; omega)
      · rw [monitorStep_true_lt maxErrors e (by push_cast at h; omega)]
        exact ih (e + 1) hk (by push_cast at h ⊢; omega)

/-- Tick counting across `k ≥ 1` consecutive failures that exactly reach the
threshold: exactly `k` ticks are processed, whatever would follow. -/
theorem ticksProcessed_replicate (maxErrors : Int) :
    ∀ (k : Nat) (e : Int) (rest : List Bool), 1 ≤ k → e + k = maxErrors →
      ticksProcessed maxErrors (List.replicate k true ++ rest)
          { errors := e, stopped := false } = k := by
  intro k
  induction k with
  | zero => intro e rest h; omega
  | succ k ih =>
      intro e rest _ h
      rw [List.replicate_succ, List.cons_append, ticksProcessed]
      simp only [Bool.false_eq_true, if_false]
      rcases Nat.eq_zero_or_pos k with hk | hk
      · subst hk
        rw [monitorStep_true_stop maxErrors e (by push_cast at h; omega)]
        simp [ticksProcessed_stopped]
      · rw [monitorStep_true_lt maxErrors e (by push_cast at h; omega),
          ih (e + 1) rest hk (by push_cast at h ⊢; omega)]
        omega

/-- With a threshold of at least 2, failures that are always followed by a
success never stop the loop, however many accumulate. -/
theorem foldl_alternating (maxErrors : Int) (h2 : 2 ≤ maxErrors) :
    ∀ n : Nat, (alternatingFails n).foldl (monitorStep maxErrors)
        { errors := 0, stopped := false }
      = { errors := 0, stopped := false } := by
  intro n
  induction n with
  | zero => rfl
  | succ n ih =>
      rw [alternatingFails, List.foldl_cons, List.foldl_cons,
        monitorStep_true_lt maxErrors 0 (by omega)]
      have hfalse : monitorStep maxErrors { errors := 0 + 1, stopped := false } false
          = { errors := 0, stopped := false } := by
        simp only [monitorStep, Bool.false_eq_true, if_false]
        exact congrArg _ (by simp; omega)
      rw [hfalse, ih]

/-- Processing one instrument: the histogram warnings logged plus the prior
latch state account exactly for the posterior latch state, so a set latch
can never log again. -/
theorem buildForMetric_histCount (config : Config) (start name : String)
    (m : Instrument) (st : OnceState) :
    (buildForMetric config start name m st).2.2.countP LogEvent.isHistogramsWarning
      + st.histogramsNotImplemented.toNat
    = ((buildForMetric config start name m st).2.1).histogramsNotImplemented.toNat := by
  rcases st with ⟨hf, tf⟩
  cases m <;> simp only [buildForMetric] <;> (try split_ifs) <;>
    cases hf <;>
      simp_all [List.countP_cons, List.countP_nil, LogEvent.isHistogramsWarning]

/-- Processing one instrument: same accounting for the timer latch. -/
theorem buildForMetric_timerCount (config : Config) (start name : String)
    (m : Instrument) (st : OnceState) :
    (buildForMetric config start name m st).2.2.countP LogEvent.isTimersWarning
      + st.timersNotImplemented.toNat
    = ((buildForMetric config start name m st).2.1).timersNotImplemented.toNat := by
  rcases st with ⟨hf, tf⟩
  cases m <;> simp only [buildForMetric] <;> (try split_ifs) <;>
    cases tf <;>
      simp_all [List.countP_cons, List.countP_nil, LogEvent.isTimersWarning]

/-- One whole tick: histogram-warning accounting. -/
theorem buildTimeSeries_histCount (config : Config) (start : String) :
    ∀ (reg : Registry) (st : OnceState),
      (buildTimeSeries config start reg st).2.2.countP LogEvent.isHistogramsWarning
        + st.histogramsNotImplemented.toNat
      = ((buildTimeSeries config start reg st).2.1).histogramsNotImplemented.toNat := by
  intro reg
  induction reg with
  | nil => intro st; simp [buildTimeSeries]
  | cons p rest ih =>
      intro st
      rcases p with ⟨name, m⟩
      have h1 := buildForMetric_histCount config start name m st
      have h2 := ih (buildForMetric config start name m st).2.1
      simp only [buildTimeSeries, List.countP_append]
      omega

/-- One whole tick: timer-warning accounting. -/
theorem buildTimeSeries_timerCount (config : Config) (start : String) :
    ∀ (reg : Registry) (st : OnceState),
      (buildTimeSeries config start reg st).2.2.countP LogEvent.isTimersWarning
        + st.timersNotImplemented.toNat
      = ((buildTimeSeries config start reg st).2.1).timersNotImplemented.toNat := by
  intro reg
  induction reg with
  | nil => intro st; simp [buildTimeSeries]
  | cons p rest ih =>
      intro st
      rcases p with ⟨name, m⟩
      have h1 := buildForMetric_timerCount config start name m st
      have h2 := ih (buildForMetric config start name m st).2.1
      simp only [buildTimeSeries, List.countP_append]
      omega

/-- Any number of ticks: histogram-warning accounting. -/
theorem runTicks_histCount (config : Config) :
    ∀ (ticks : List (String × Registry)) (st : OnceState),
      (runTicks config ticks st).2.2.countP LogEvent.isHistogramsWarning
        + st.histogramsNotImplemented.toNat
      = ((runTicks config ticks st).2.1).histogramsNotImplemented.toNat := by
  intro ticks
  induction ticks with
  | nil => intro st; simp [runTicks]
  | cons t rest ih =>
      intro st
      rcases t with ⟨start, reg⟩
      have h1 := buildTimeSeries_histCount config start reg st
      have h2 := ih (buildTimeSeries config start reg st).2.1
      simp only [runTicks, List.countP_append]
      omega

/-- Any number of ticks: timer-warning accounting. -/
theorem runTicks_timerCount (config : Config) :
    ∀ (ticks : List (String × Registry)) (st : OnceState),
      (runTicks config ticks st).2.2.countP LogEvent.isTimersWarning
        + st.timersNotImplemented.toNat
      = ((runTicks config ticks st).2.1).timersNotImplemented.toNat := by
  intro ticks
  induction ticks with
  | nil => intro st; simp [runTicks]
  | cons t rest ih =>
      intro st
      rcases t with ⟨start, reg⟩
      have h1 := buildTimeSeries_timerCount config start reg st
      have h2 := ih (buildTimeSeries config start reg st).2.1
      simp only [runTicks, List.countP_append]
      omega

/-- An instrument that does not trip the histogram check leaves the
histogram latch unchanged. -/
theorem buildForMetric_histFlag_preserved (config : Config) (start name : String)
    (m : Instrument) (st : OnceState) (hm : triggersHistogram m = false) :
    ((buildForMetric config start name m st).2.1).histogramsNotImplemented
      = st.histogramsNotImplemented := by
  cases m <;> simp_all [buildForMetric, triggersHistogram] <;> split_ifs <;> simp_all <;> omega

/-- An instrument that does not trip the timer check leaves the timer latch
unchanged. -/
theorem buildForMetric_timerFlag_preserved (config : Config) (start name : String)
    (m : Instrument) (st : OnceState) (hm : triggersTimer m = false) :
    ((buildForMetric config start name m st).2.1).timersNotImplemented
      = st.timersNotImplemented := by
  cases m <;> simp_all [buildForMetric, triggersTimer] <;> split_ifs <;> simp_all <;> omega

/-- A tick with no tripping histogram leaves the histogram latch unchanged. -/
theorem buildTimeSeries_histFlag_preserved (config : Config) (start : String) :
    ∀ (reg : Registry) (st : OnceState),
      (∀ p ∈ reg, triggersHistogram p.2 = false) →
      ((buildTimeSeries config start reg st).2.1).histogramsNotImplemented
        = st.histogramsNotImplemented := by
  intro reg
  induction reg with
  | nil => intro st _; simp [buildTimeSeries]
  | cons p rest ih =>
      intro st h
      rcases p with ⟨name, m⟩
      have h1 := buildForMetric_histFlag_preserved config start name m st
        (h (name, m) (List.mem_cons_self _ _))
      have h2 := ih (buildForMetric config start name m st).2.1
        (fun q hq => h q (List.mem_cons_of_mem _ hq))
      simp only [buildTimeSeries]
      rw [h2, h1]

/-- A tick with no tripping timer leaves the timer latch unchanged. -/
theorem buildTimeSeries_timerFlag_preserved (config : Config) (start : String) :
    ∀ (reg : Registry) (st : OnceState),
      (∀ p ∈ reg, triggersTimer p.2 = false) →
      ((buildTimeSeries config start reg st).2.1).timersNotImplemented
        = st.timersNotImplemented := by
  intro reg
  induction reg with
  | nil => intro st _; simp [buildTimeSeries]
  | cons p rest ih =>
      intro st h
      rcases p with ⟨name, m⟩
      have h1 := buildForMetric_timerFlag_preserved config start name m st
        (h (name, m) (List.mem_cons_self _ _))
      have h2 := ih (buildForMetric config start name m st).2.1
        (fun q hq => h q (List.mem_cons_of_mem _ hq))
      simp only [buildTimeSeries]
      rw [h2, h1]

/-- A run with no tripping histogram anywhere leaves the histogram latch
unchanged. -/
theorem runTicks_histFlag_preserved (config : Config) :
    ∀ (ticks : List (String × Registry)) (st : OnceState),
      (∀ t ∈ ticks, ∀ p ∈ t.2, triggersHistogram p.2 = false) →
      ((runTicks config ticks st).2.1).histogramsNotImplemented
        = st.histogramsNotImplemented := by
  intro ticks
  induction ticks with
  | nil => intro st _; simp [runTicks]
  | cons t rest ih =>
      intro st h
      rcases t with ⟨start, reg⟩
      have h1 := buildTimeSeries_histFlag_preserved config start reg st
        (h (start, reg) (List.mem_cons_self _ _))
      have h2 := ih (buildTimeSeries config start reg st).2.1
        (fun q hq => h q (List.mem_cons_of_mem _ hq))
      simp only [runTicks]
      rw [h2, h1]

/-- A run with no tripping timer anywhere leaves the timer latch unchanged. -/
theorem runTicks_timerFlag_preserved (config : Config) :
    ∀ (ticks : List (String × Registry)) (st : OnceState),
      (∀ t ∈ ticks, ∀ p ∈ t.2, triggersTimer p.2 = false) →
      ((runTicks config ticks st).2.1).timersNotImplemented
        = st.timersNotImplemented := by
  intro ticks
  induction ticks with
  | nil => intro st _; simp [runTicks]
  | cons t rest ih =>
      intro st h
      rcases t with ⟨start, reg⟩
      have h1 := buildTimeSeries_timerFlag_preserved config start reg st
        (h (start, reg) (List.mem_cons_self _ _))
      have h2 := ih (buildTimeSeries config start reg st).2.1
        (fun q hq => h q (List.mem_cons_of_mem _ hq))
      simp only [runTicks]
      rw [h2, h1]

/-- Every series built by the meter case is a double-valued `mkSeries`. -/
theorem mem_buildMeter_shape (config : Config) (start name : String)
    (s : MeterSnapshot) (ts : TimeSeries) (h : ts ∈ buildMeter config start name s) :
    ∃ nm r, ts = mkSeries config start nm { int64Value := none, doubleValue := some r } := by
  simp only [buildMeter, List.mem_append] at h
  rcases h with ((h | h) | h) | h <;> split_ifs at h <;>
    simp only [List.mem_singleton, List.not_mem_nil] at h <;> exact ⟨_, _, h⟩

/-- Every series built for any instrument is an `mkSeries` whose typed value
has exactly one of its two fields set. -/
theorem mem_buildForMetric_shape (config : Config) (start name : String)
    (m : Instrument) (st : OnceState) (ts : TimeSeries)
    (h : ts ∈ (buildForMetric config start name m st).1) :
    ∃ nm v, ts = mkSeries config start nm v
      ∧ v.int64Value.isSome = !v.doubleValue.isSome := by
  cases m with
  | counter v =>
      simp only [buildForMetric] at h
      split_ifs at h <;> simp only [List.mem_singleton, List.not_mem_nil] at h
      exact ⟨name, _, h, rfl⟩
  | gauge v =>
      simp only [buildForMetric] at h
      split_ifs at h <;> simp only [List.mem_singleton, List.not_mem_nil] at h
      exact ⟨name, _, h, rfl⟩
  | gaugeFloat64 v =>
      simp only [buildForMetric] at h
      split_ifs at h <;> simp only [List.mem_singleton, List.not_mem_nil] at h
      exact ⟨name, _, h, rfl⟩
  | meter s =>
      obtain ⟨nm, r, hr⟩ := mem_buildMeter_shape config start name s ts h
      exact ⟨nm, _, hr, rfl⟩
  | histogram c =>
      simp only [buildForMetric] at h
      split_ifs at h <;> simp at h
  | timer c =>
      simp only [buildForMetric] at h
      split_ifs at h <;> simp at h
  | unknown => simp [buildForMetric] at h

/-- Every series in a whole batch is an `mkSeries` with exactly one typed
value field set. -/
theorem mem_buildTimeSeries_shape (config : Config) (start : String) :
    ∀ (reg : Registry) (st : OnceState) (ts : TimeSeries),
      ts ∈ (buildTimeSeries config start reg st).1 →
      ∃ nm v, ts = mkSeries config start nm v
        ∧ v.int64Value.isSome = !v.doubleValue.isSome := by
  intro reg
  induction reg with
  | nil => intro st ts h; simp [buildTimeSeries] at h
  | cons p rest ih =>
      intro st ts h
      rcases p with ⟨name, m⟩
      simp only [buildTimeSeries, List.mem_append] at h
      rcases h with h | h
      · exact mem_buildForMetric_shape config start name m st ts h
      · exact ih _ ts h

/-! ## Claim theorems -/

/-- C2: in the Submission Loop, the consecutive-error counter is incremented
on every failed submission and reset to zero on any success; after exactly
`maxErrors` consecutive failures (and not after any smaller number, nor after
failures merely cumulative across interleaved successes) the loop stops, the
stopped state absorbs every later event, and exactly `maxErrors` ticks are
processed no matter what would follow. -/
theorem monitor_consecutive_errors (maxErrors : Int) (h : 1 ≤ maxErrors) :
    (∀ (s : LoopState) (b : Bool), s.stopped = false →
        (monitorStep maxErrors s b).errors = if b then s.errors + 1 else 0)
  ∧ (∀ (s : LoopState) (b : Bool), s.stopped = true → monitorStep maxErrors s b = s)
  ∧ monitorRun maxErrors (List.replicate maxErrors.toNat true)
      = { errors := maxErrors, stopped := true }
  ∧ (∀ k : Nat, (k : Int) < maxErrors →
      monitorRun maxErrors (List.replicate k true)
        = { errors := k, stopped := false })
  ∧ (∀ rest : List Bool,
      ticksProcessed maxErrors (List.replicate maxErrors.toNat true ++ rest)
        { errors := 0, stopped := false } = maxErrors.toNat)
  ∧ (∀ n : Nat, 2 ≤ maxErrors →
      (monitorRun maxErrors (alternatingFails n)).stopped = false) := by
  refine ⟨fun s b hs => by simp [monitorStep, hs], monitorStep_stopped maxErrors,
    ?_, fun k hk => ?_, fun rest => ?_, fun n h2 => ?_⟩
  · rw [monitorRun, foldl_replicate_true_stop maxErrors maxErrors.toNat 0
      (by omega) (by omega)]
  · rw [monitorRun, foldl_replicate_true_lt maxErrors k 0 (by omega)]
    congr 1
    omega
  · exact ticksProcessed_replicate maxErrors maxErrors.toNat 0 rest (by omega) (by omega)
  · rw [monitorRun, foldl_alternating maxErrors h2 n]

/-- Witness for C2 at the spec's end-to-end example, maxErrors = 3. -/
theorem monitor_consecutive_errors_witness :
    (1 : Int) ≤ 3 ∧
    ((∀ (s : LoopState) (b : Bool), s.stopped = false →
        (monitorStep 3 s b).errors = if b then s.errors + 1 else 0)
    ∧ (∀ (s : LoopState) (b : Bool), s.stopped = true → monitorStep 3 s b = s)
    ∧ monitorRun 3 (List.replicate (3 : Int).toNat true)
        = { errors := 3, stopped := true }
    ∧ (∀ k : Nat, (k : Int) < 3 →
        monitorRun 3 (List.replicate k true) = { errors := k, stopped := false })
    ∧ (∀ rest : List Bool,
        ticksProcessed 3 (List.replicate (3 : Int).toNat true ++ rest)
          { errors := 0, stopped := false } = (3 : Int).toNat)
    ∧ (∀ n : Nat, 2 ≤ (3 : Int) →
        (monitorRun 3 (alternatingFails n)).stopped = false)) :=
  ⟨by decide, monitor_consecutive_errors 3 (by decide)⟩

/-- C1 (amended): for every Meter, the extractor reads the single atomic
snapshot and emits up to four (suffix, value) series with suffixes ".mean",
".1min", ".5min", ".15min" for the four rate windows — no ".count" series is
built — each suppressed independently exactly when its rate is zero, with no
effect on the diagnostic state or the log; for the snapshot count=5,
mean=6/5, rate1=0, rate5=17/5, rate15=0 exactly two series are emitted,
suffixed ".mean" and ".5min". -/
theorem meter_rate_emission :
    (∀ (config : Config) (start name : String) (s : MeterSnapshot) (st : OnceState),
      buildForMetric config start name (.meter s) st
        = (([(".mean", s.rateMean), (".1min", s.rate1), (".5min", s.rate5),
             (".15min", s.rate15)].filter fun p => decide (p.2 ≠ 0)).map
            (fun p => mkSeries config start (name ++ p.1)
              { int64Value := none, doubleValue := some p.2 }),
           st, []))
  ∧ seriesTypes (buildForMetric { labels := [], monitoredRessource := none } "t" "m"
        (.meter { count := 5, rateMean := ⟨6, 5, by decide, by decide⟩, rate1 := 0,
                  rate5 := ⟨17, 5, by decide, by decide⟩, rate15 := 0 })
        { histogramsNotImplemented := false, timersNotImplemented := false }).1
      = ["custom.googleapis.com/m/mean", "custom.googleapis.com/m/5min"]
  ∧ (buildForMetric { labels := [], monitoredRessource := none } "t" "m"
        (.meter { count := 5, rateMean := ⟨6, 5, by decide, by decide⟩, rate1 := 0,
                  rate5 := ⟨17, 5, by decide, by decide⟩, rate15 := 0 })
        { histogramsNotImplemented := false, timersNotImplemented := false }).1.length = 2 :=
  ⟨fun config start name s st => by
      show (buildMeter config start name s, st, []) = _
      rw [buildMeter_eq_filter],
   by decide, by decide⟩

/-- Counterexample to C1 as stated: for the snapshot count=5, mean=6/5,
rate1=0, rate5=17/5, rate15=0 the code emits two series, not three, and no
series carries the ".count" suffix (identity "custom.googleapis.com/m/count");
the snapshot count is never emitted. -/
theorem meter_count_suffix_counterexample :
    (buildForMetric { labels := [], monitoredRessource := none } "t" "m"
        (.meter { count := 5, rateMean := ⟨6, 5, by decide, by decide⟩, rate1 := 0,
                  rate5 := ⟨17, 5, by decide, by decide⟩, rate15 := 0 })
        { histogramsNotImplemented := false, timersNotImplemented := false }).1.length ≠ 3
  ∧ (seriesTypes (buildForMetric { labels := [], monitoredRessource := none } "t" "m"
        (.meter { count := 5, rateMean := ⟨6, 5, by decide, by decide⟩, rate1 := 0,
                  rate5 := ⟨17, 5, by decide, by decide⟩, rate15 := 0 })
        { histogramsNotImplemented := false, timersNotImplemented := false }).1).contains
      "custom.googleapis.com/m/count" = false := by
  constructor <;> decide

/-- C3: for every Counter, integer Gauge, or floating Gauge whose current
value is exactly zero at a tick, the Batch Assembler emits no time-series
point for that instrument in that tick: the batch (and the diagnostic state
and logging) is the same as if the instrument were absent from the
registry. -/
theorem zero_instruments_emit_nothing (config : Config) (start name : String)
    (pre post : Registry) (st : OnceState) :
    buildTimeSeries config start (pre ++ (name, .counter 0) :: post) st
      = buildTimeSeries config start (pre ++ post) st
  ∧ buildTimeSeries config start (pre ++ (name, .gauge 0) :: post) st
      = buildTimeSeries config start (pre ++ post) st
  ∧ buildTimeSeries config start (pre ++ (name, .gaugeFloat64 0) :: post) st
      = buildTimeSeries config start (pre ++ post) st :=
  ⟨buildTimeSeries_insert_inert config start name _
      (buildForMetric_counter_zero config start name) pre post st,
   buildTimeSeries_insert_inert config start name _
      (buildForMetric_gauge_zero config start name) pre post st,
   buildTimeSeries_insert_inert config start name _
      (buildForMetric_gaugeFloat64_zero config start name) pre post st⟩

/-- C4: for every Counter with non-zero count `N`, exactly one time series
is emitted, its metric identity is `customMetric name` (empty name suffix:
the identity derives from the registry name alone), and its single point
carries the integer value `N` and no floating value. -/
theorem counter_single_point (config : Config) (start name : String)
    (N : Int) (st : OnceState) (h : N ≠ 0) :
    buildForMetric config start name (.counter N) st
      = ([{ metric := { type := customMetric name, labels := config.labels },
            resource := config.monitoredRessource.getD GlobalMonitoredResource,
            points := [{ value := { int64Value := some N, doubleValue := none },
                         interval := { startTime := "", endTime := start } }] }],
         st, []) := by
  simp [buildForMetric, mkSeries, newTimeSeries, h]

/-- Witness for C4 at the spec's end-to-end example: Counter("jobs.done")=10
produces one series named "custom.googleapis.com/jobs/done" with integer
value 10. -/
theorem counter_single_point_witness :
    (10 : Int) ≠ 0 ∧
    buildForMetric { labels := [], monitoredRessource := none } "t" "jobs.done"
        (.counter 10) { histogramsNotImplemented := false, timersNotImplemented := false }
      = ([{ metric := { type := customMetric "jobs.done", labels := [] },
            resource := GlobalMonitoredResource,
            points := [{ value := { int64Value := some 10, doubleValue := none },
                         interval := { startTime := "", endTime := "t" } }] }],
         { histogramsNotImplemented := false, timersNotImplemented := false }, []) :=
  ⟨by decide,
   counter_single_point { labels := [], monitoredRessource := none } "t" "jobs.done"
     10 { histogramsNotImplemented := false, timersNotImplemented := false } (by decide)⟩

/-- C5: the metric identity is a pure, deterministic function of the registry
name: it replaces each "." with "/" and prefixes the fixed namespace; two
invocations on the same name agree; "http.requests" maps to
"custom.googleapis.com/http/requests"; and a name containing no dots is left
unchanged by the dot-replacement step. -/
theorem metric_identity_pure :
    (∀ n₁ n₂ : String, n₁ = n₂ → customMetric n₁ = customMetric n₂)
  ∧ customMetric "http.requests" = "custom.googleapis.com/http/requests"
  ∧ (∀ name : String, (∀ c ∈ name.data, c ≠ '.') → DotSlashes name = name)
  ∧ DotSlashes "http_requests" = "http_requests"
  ∧ (∀ name : String, customMetric name = "custom.googleapis.com/" ++ DotSlashes name) := by
  refine ⟨fun n₁ n₂ h => by rw [h], by decide, fun name h => ?_, by decide, fun _ => rfl⟩
  apply String.ext
  show name.data.map _ = name.data
  rw [List.map_congr_left (g := id) (fun c hc => by simp [h c hc]), List.map_id]

/-- Witness for C5: its dot-free conjunct applied at "http_requests". -/
theorem metric_identity_pure_witness :
    (∀ c ∈ "http_requests".data, c ≠ '.') ∧ DotSlashes "http_requests" = "http_requests" :=
  ⟨by decide, metric_identity_pure.2.2.1 "http_requests" (by decide)⟩

/-- C6: across any number of ticks over any registries, the
histogram-unsupported and timer-unsupported diagnostics each fire at most
once per process lifetime; each fires only when some observed instrument of
that kind has count > 0 (if nothing trips the check, the warning count is
zero); and no time series is ever emitted for a Histogram or Timer. -/
theorem one_time_diagnostics :
    (∀ (config : Config) (ticks : List (String × Registry)),
      (runTicks config ticks freshOnce).2.2.countP LogEvent.isHistogramsWarning ≤ 1
      ∧ (runTicks config ticks freshOnce).2.2.countP LogEvent.isTimersWarning ≤ 1)
  ∧ (∀ (config : Config) (ticks : List (String × Registry)),
      (∀ t ∈ ticks, ∀ p ∈ t.2, triggersHistogram p.2 = false) →
      (runTicks config ticks freshOnce).2.2.countP LogEvent.isHistogramsWarning = 0)
  ∧ (∀ (config : Config) (ticks : List (String × Registry)),
      (∀ t ∈ ticks, ∀ p ∈ t.2, triggersTimer p.2 = false) →
      (runTicks config ticks freshOnce).2.2.countP LogEvent.isTimersWarning = 0)
  ∧ (∀ (config : Config) (start name : String) (c : Int) (st : OnceState),
      (buildForMetric config start name (.histogram c) st).1 = []
      ∧ (buildForMetric config start name (.timer c) st).1 = []) := by
  refine ⟨fun config ticks => ?_, fun config ticks h => ?_, fun config ticks h => ?_,
    fun config start name c st => ?_⟩
  · have h1 := runTicks_histCount config ticks freshOnce
    have h2 := runTicks_timerCount config ticks freshOnce
    have hb : ∀ b : Bool, b.toNat ≤ 1 := by decide
    have hb1 := hb ((runTicks config ticks freshOnce).2.1).histogramsNotImplemented
    have hb2 := hb ((runTicks config ticks freshOnce).2.1).timersNotImplemented
    have hz1 : freshOnce.histogramsNotImplemented.toNat = 0 := rfl
    have hz2 : freshOnce.timersNotImplemented.toNat = 0 := rfl
    rw [hz1] at h1
    rw [hz2] at h2
    constructor <;> omega
  · have h1 := runTicks_histCount config ticks freshOnce
    rw [runTicks_histFlag_preserved config ticks _ h] at h1
    simpa [freshOnce] using h1
  · have h2 := runTicks_timerCount config ticks freshOnce
    rw [runTicks_timerFlag_preserved config ticks _ h] at h2
    simpa [freshOnce] using h2
  · constructor <;> (simp only [buildForMetric]; split_ifs <;> rfl)

/-- Witness for C6: its only-when-count-positive conjuncts applied to one
tick holding an idle histogram and an idle timer. -/
theorem one_time_diagnostics_witness :
    ((∀ t ∈ [("t", [("h", Instrument.histogram 0), ("w", Instrument.timer 0)])],
        ∀ p ∈ t.2, triggersHistogram p.2 = false)
      ∧ (runTicks { labels := [], monitoredRessource := none }
          [("t", [("h", Instrument.histogram 0), ("w", Instrument.timer 0)])]
          freshOnce).2.2.countP LogEvent.isHistogramsWarning = 0)
  ∧ ((∀ t ∈ [("t", [("h", Instrument.histogram 0), ("w", Instrument.timer 0)])],
        ∀ p ∈ t.2, triggersTimer p.2 = false)
      ∧ (runTicks { labels := [], monitoredRessource := none }
          [("t", [("h", Instrument.histogram 0), ("w", Instrument.timer 0)])]
          freshOnce).2.2.countP LogEvent.isTimersWarning = 0) :=
  ⟨⟨by decide, one_time_diagnostics.2.1 { labels := [], monitoredRessource := none }
      [("t", [("h", Instrument.histogram 0), ("w", Instrument.timer 0)])] (by decide)⟩,
   ⟨by decide, one_time_diagnostics.2.2.1 { labels := [], monitoredRessource := none }
      [("t", [("h", Instrument.histogram 0), ("w", Instrument.timer 0)])] (by decide)⟩⟩

/-- C7: every series emitted in a tick carries the configured labels
verbatim, holds exactly one point, and that point has exactly one typed
value (never both, never neither) and an interval whose end is the tick
timestamp with no separately tracked start; Counter and integer Gauge points
are integer-valued, floating Gauge points and Meter rate points are
double-valued. -/
theorem point_shape_invariant (config : Config) (start : String) :
    (∀ (reg : Registry) (st : OnceState) (ts : TimeSeries),
      ts ∈ (buildTimeSeries config start reg st).1 →
        ts.metric.labels = config.labels
        ∧ ts.points.length = 1
        ∧ ∀ p ∈ ts.points,
            p.value.int64Value.isSome = !p.value.doubleValue.isSome
            ∧ p.interval.endTime = start
            ∧ p.interval.startTime = "")
  ∧ (∀ (name : String) (v : Int) (st : OnceState) (ts : TimeSeries),
      ts ∈ (buildForMetric config start name (.counter v) st).1 →
        ∀ p ∈ ts.points, p.value = { int64Value := some v, doubleValue := none })
  ∧ (∀ (name : String) (v : Int) (st : OnceState) (ts : TimeSeries),
      ts ∈ (buildForMetric config start name (.gauge v) st).1 →
        ∀ p ∈ ts.points, p.value = { int64Value := some v, doubleValue := none })
  ∧ (∀ (name : String) (v : ℚ) (st : OnceState) (ts : TimeSeries),
      ts ∈ (buildForMetric config start name (.gaugeFloat64 v) st).1 →
        ∀ p ∈ ts.points, p.value = { int64Value := none, doubleValue := some v })
  ∧ (∀ (name : String) (s : MeterSnapshot) (st : OnceState) (ts : TimeSeries),
      ts ∈ (buildForMetric config start name (.meter s) st).1 →
        ∀ p ∈ ts.points, p.value.int64Value = none ∧ p.value.doubleValue.isSome = true) := by
  refine ⟨fun reg st ts hts => ?_, fun name v st ts hts p hp => ?_,
    fun name v st ts hts p hp => ?_, fun name v st ts hts p hp => ?_,
    fun name s st ts hts p hp => ?_⟩
  · obtain ⟨nm, v, hts, hv⟩ := mem_buildTimeSeries_shape config start reg st ts hts
    subst hts
    refine ⟨rfl, rfl, fun p hp => ?_⟩
    simp only [mkSeries, newTimeSeries, List.nil_append, List.mem_singleton] at hp
    subst hp
    exact ⟨hv, rfl, rfl⟩
  · simp only [buildForMetric] at hts
    split_ifs at hts <;> simp only [List.mem_singleton, List.not_mem_nil] at hts
    subst hts
    simp only [mkSeries, newTimeSeries, List.nil_append, List.mem_singleton] at hp
    subst hp
    rfl
  · simp only [buildForMetric] at hts
    split_ifs at hts <;> simp only [List.mem_singleton, List.not_mem_nil] at hts
    subst hts
    simp only [mkSeries, newTimeSeries, List.nil_append, List.mem_singleton] at hp
    subst hp
    rfl
  · simp only [buildForMetric] at hts
    split_ifs at hts <;> simp only [List.mem_singleton, List.not_mem_nil] at hts
    subst hts
    simp only [mkSeries, newTimeSeries, List.nil_append, List.mem_singleton] at hp
    subst hp
    rfl
  · obtain ⟨nm, r, hr⟩ := mem_buildMeter_shape config start name s ts hts
    subst hr
    simp only [mkSeries, newTimeSeries, List.nil_append, List.mem_singleton] at hp
    subst hp
    exact ⟨rfl, rfl⟩

/-- Witness for C7 at a one-counter registry: the emitted series satisfies
the label/point/interval invariant. -/
theorem point_shape_invariant_witness :
    ({ metric := { type := "custom.googleapis.com/c", labels := [("source", "host1")] },
       resource := GlobalMonitoredResource,
       points := [{ value := { int64Value := some 7, doubleValue := none },
                    interval := { startTime := "", endTime := "t" } }] } : TimeSeries)
      ∈ (buildTimeSeries { labels := [("source", "host1")], monitoredRessource := none }
          "t" [("c", .counter 7)] freshOnce).1
  ∧ (({ metric := { type := "custom.googleapis.com/c", labels := [("source", "host1")] },
        resource := GlobalMonitoredResource,
        points := [{ value := { int64Value := some 7, doubleValue := none },
                     interval := { startTime := "", endTime := "t" } }] } : TimeSeries).metric.labels
        = [("source", "host1")]
     ∧ ({ metric := { type := "custom.googleapis.com/c", labels := [("source", "host1")] },
          resource := GlobalMonitoredResource,
          points := [{ value := { int64Value := some 7, doubleValue := none },
                       interval := { startTime := "", endTime := "t" } }] } : TimeSeries).points.length = 1
     ∧ ∀ p ∈ ({ metric := { type := "custom.googleapis.com/c", labels := [("source", "host1")] },
                resource := GlobalMonitoredResource,
                points := [{ value := { int64Value := some 7, doubleValue := none },
                             interval := { startTime := "", endTime := "t" } }] } : TimeSeries).points,
          p.value.int64Value.isSome = !p.value.doubleValue.isSome
          ∧ p.interval.endTime = "t"
          ∧ p.interval.startTime = "") :=
  ⟨by decide,
   (point_shape_invariant { labels := [("source", "host1")], monitoredRessource := none } "t").1
     [("c", .counter 7)] freshOnce _ (by decide)⟩

/-- C8: when the configuration's monitored-resource descriptor is nil,
every emitted time series carries the process-global default
`GlobalMonitoredResource` (resource type "global"). -/
theorem default_global_resource (config : Config) (start : String)
    (reg : Registry) (st : OnceState) (h : config.monitoredRessource = none) :
    ∀ ts ∈ (buildTimeSeries config start reg st).1,
      ts.resource = GlobalMonitoredResource := by
  intro ts hts
  obtain ⟨nm, v, hts, _⟩ := mem_buildTimeSeries_shape config start reg st ts hts
  subst hts
  simp [mkSeries, newTimeSeries, h]

/-- Witness for C8 at a one-counter registry with no configured resource. -/
theorem default_global_resource_witness :
    ({ labels := [], monitoredRessource := none } : Config).monitoredRessource = none
  ∧ ∀ ts ∈ (buildTimeSeries { labels := [], monitoredRessource := none }
        "t" [("c", .counter 7)] freshOnce).1,
      ts.resource = GlobalMonitoredResource :=
  ⟨rfl, default_global_resource { labels := [], monitoredRessource := none }
    "t" [("c", .counter 7)] freshOnce rfl⟩

/-- Counterexample to C9 as stated: declaring the uncached name "g" with a
succeeding backend call makes the backend call, yet does NOT add the name to
the cache — so it is false that either outcome adds the name. -/
theorem create_gauge_success_not_cached :
    (CreateGauge [] "g" false).2 = true ∧ "g" ∉ (CreateGauge [] "g" false).1 := by
  constructor <;> decide

/-- C9 (amended): declaring a name that is already cached is a no-op (no
backend call, cache unchanged); declaring an uncached name always makes the
backend call; a failed call caches the name as if it had succeeded, while a
successful call leaves it uncached — only failure adds the name to the
cache. -/
theorem create_gauge_cache_behavior (gauges : List String) (name : String) :
    (name ∈ gauges → ∀ callFails : Bool, CreateGauge gauges name callFails = (gauges, false))
  ∧ (name ∉ gauges → ∀ callFails : Bool, (CreateGauge gauges name callFails).2 = true)
  ∧ (name ∉ gauges → (CreateGauge gauges name true).1 = name :: gauges)
  ∧ (name ∉ gauges → (CreateGauge gauges name false).1 = gauges) := by
  refine ⟨fun h b => ?_, fun h b => ?_, fun h => ?_, fun h => ?_⟩ <;>
    simp [CreateGauge, h]

/-- Witness for C9's amended claim: a cached hit is a no-op, and from an
empty cache a failing call caches "g" while a succeeding call does not. -/
theorem create_gauge_cache_behavior_witness :
    ("g" ∈ ["g"] ∧ CreateGauge ["g"] "g" true = (["g"], false))
  ∧ ("g" ∉ ([] : List String)
     ∧ (CreateGauge [] "g" true).1 = ["g"]
     ∧ (CreateGauge [] "g" false).1 = []) :=
  ⟨⟨by decide, (create_gauge_cache_behavior ["g"] "g").1 (by decide) true⟩,
   ⟨by decide, (create_gauge_cache_behavior [] "g").2.2.1 (by decide),
    (create_gauge_cache_behavior [] "g").2.2.2 (by decide)⟩⟩

/-- C10: for every `maxErrors ≤ 0`, the Monitor loop halts after the very
first tick even when that tick's submission succeeds: the consecutive-error
counter (zero after a success) already satisfies `errors >= maxErrors`, so
`ticker.Stop()` runs and no further tick is processed. -/
theorem nonpositive_max_errors_halts (maxErrors : Int) (h : maxErrors ≤ 0) :
    (∀ b : Bool,
      (monitorStep maxErrors { errors := 0, stopped := false } b).stopped = true)
  ∧ (∀ (b : Bool) (rest : List Bool),
      ticksProcessed maxErrors (b :: rest) { errors := 0, stopped := false } = 1)
  ∧ (∀ (b : Bool) (rest : List Bool),
      (monitorRun maxErrors (b :: rest)).stopped = true) := by
  have hstep : ∀ b : Bool,
      (monitorStep maxErrors { errors := 0, stopped := false } b).stopped = true := by
    intro b
    cases b <;> simp [monitorStep] <;> omega
  refine ⟨hstep, fun b rest => ?_, fun b rest => ?_⟩
  · rw [ticksProcessed]
    simp [ticksProcessed_stopped maxErrors rest _ (hstep b)]
  · rw [monitorRun, List.foldl_cons,
      foldl_monitorStep_stopped maxErrors rest _ (hstep b)]
    exact hstep b

/-- Witness for C10 at maxErrors = 0 and a successful first tick. -/
theorem nonpositive_max_errors_halts_witness :
    (0 : Int) ≤ 0 ∧
    ((∀ b : Bool,
        (monitorStep 0 { errors := 0, stopped := false } b).stopped = true)
     ∧ (∀ (b : Bool) (rest : List Bool),
        ticksProcessed 0 (b :: rest) { errors := 0, stopped := false } = 1)
     ∧ (∀ (b : Bool) (rest : List Bool),
        (monitorRun 0 (b :: rest)).stopped = true)) :=
  ⟨by decide, nonpositive_max_errors_halts 0 (by decide)⟩

end Gcm
